import Mathlib

/-!
Verification of the monitoring core of `watch-net-speed`.

The repository has two scheduler variants (`src/monitor/speed-monitor.ts` and
the Ookla variant) whose `loadData` / `saveData` / `loadConfig` / `runMonitor`
bodies are identical in the parts modelled here, and an API server
(`src/monitor/api-server.ts`).

Modelling conventions:
* Timestamps are milliseconds since the epoch (the code stores ISO-8601
  strings and compares them through `new Date`, which compares the underlying
  millisecond values).
* A JSON file on disk is modelled by `FileContent`: it is absent, present but
  unparseable (`JSON.parse` throws), or present and parsed to a value.
* Numeric measurement fields are rationals (JS numbers rounded to two
  decimals); no claim inspects them beyond equality.
-/

/-- One measurement sample (`SpeedResult` in the scheduler sources,
`SpeedData` in the shared type files). Optional `server` / `isp` labels
exist only in the Ookla variant and are irrelevant to every claim, so the
common five fields are kept. -/
structure Reading where
  timestamp : Int
  download : ℚ
  upload : ℚ
  ping : ℚ
  jitter : ℚ
deriving DecidableEq, Repr

/-- The persisted config record `{ intervalMinutes, method? }`
(`Config` in the shared type files; the scheduler only reads
`intervalMinutes`). -/
structure ConfigRec where
  intervalMinutes : Int
  method : Option String
deriving DecidableEq, Repr

/-- State of one JSON file: absent, present but unparseable, or parsed. -/
inductive FileContent (α : Type) where
  | absent
  | corrupt
  | parsed (value : α)
deriving DecidableEq, Repr

/-- The two files the monitoring core touches:
`speed_data.json` and `config.json`. -/
structure FsState where
  dataFile : FileContent (List Reading)
  configFile : FileContent ConfigRec
deriving DecidableEq, Repr

/-- `{ intervalMinutes: 30 }`, the default materialised by `loadConfig`. -/
def defaultConfig : ConfigRec := { intervalMinutes := 30, method := none }

/-- `loadData` (speed-monitor.ts lines 20-30): `[]` when the file does not
exist, `[]` when `JSON.parse` throws, otherwise the parsed array. -/
def loadData (fs : FsState) : List Reading :=
  match fs.dataFile with
  | .absent => []
  | .corrupt => []
  | .parsed l => l

/-- `saveData` (speed-monitor.ts lines 32-34): overwrite `speed_data.json`. -/
def saveData (fs : FsState) (results : List Reading) : FsState :=
  { fs with dataFile := .parsed results }

/-- `loadConfig` (speed-monitor.ts lines 36-47, identically api-server.ts
lines 20-31): if the file does not exist, write the default and return it;
if `JSON.parse` throws, return the default without writing; otherwise the
parsed record. -/
def loadConfig (fs : FsState) : ConfigRec × FsState :=
  match fs.configFile with
  | .absent => (defaultConfig, { fs with configFile := .parsed defaultConfig })
  | .corrupt => (defaultConfig, fs)
  | .parsed c => (c, fs)

/-- `saveConfig` (api-server.ts lines 34-36): overwrite `config.json` with
exactly the record it is given. -/
def saveConfig (fs : FsState) (c : ConfigRec) : FsState :=
  { fs with configFile := .parsed c }

/-- Seven days in milliseconds, the retention window. -/
def retentionMs : Int := 7 * 24 * 60 * 60 * 1000

/-- The retention filter inside the append cycle (speed-monitor.ts lines
109-114): `data.filter(d => new Date(d.timestamp) > sevenDaysAgo)` with
`sevenDaysAgo = now - 7 days`.  A reading is kept iff its timestamp is
strictly greater than the cutoff. -/
def prune (now : Int) (data : List Reading) : List Reading :=
  data.filter (fun d => now - retentionMs < d.timestamp)

/-- The measure/persist/schedule part of one `runMonitor` cycle
(speed-monitor.ts lines 104-129).  `measureResult` is `some r` when
`measureSpeed()` resolved with reading `r` and `none` when it rejected (the
`catch` swallows the error).  On success the cycle loads the history, pushes
the reading, prunes, and saves; on failure it touches nothing.  Either way it
then re-reads the config and returns the timer delay
`config.intervalMinutes * 60 * 1000`.  The throttled observability check at
lines 96-102 only logs and never touches the data file, so it is omitted. -/
def runMonitorTail (measureResult : Option Reading) (now : Int) (fs : FsState) :
    FsState × Int :=
  let fs1 := match measureResult with
    | some result => saveData fs (prune now (loadData fs ++ [result]))
    | none => fs
  let (config, fs2) := loadConfig fs1
  (fs2, config.intervalMinutes * 60 * 1000)

/-- Startup of the scheduler process (speed-monitor.ts lines 132-137, and
lines 150-166 of the Ookla variant): `const initialConfig = loadConfig()`.
Neither variant ever reads `process.argv`; the argument vector is carried
here only to state that fact. -/
def startupInitialConfig (_argv : List String) (fs : FsState) : ConfigRec × FsState :=
  loadConfig fs

/-- The JavaScript value handed to `res.json` by the latest-reading
endpoint: `undefined` (indexing past the end), `null`, or a reading. -/
inductive LatestValue where
  | undef
  | nullValue
  | reading (r : Reading)
deriving DecidableEq, Repr

/-- Response of `GET /api/speed-data/latest`. -/
inductive LatestResp where
  | ok (v : LatestValue)
  | serverError
deriving DecidableEq, Repr

/-- `GET /api/speed-data/latest` (api-server.ts lines 54-67): `null` when the
file does not exist; on a parse error the `catch` answers 500; otherwise the
value of `data[data.length - 1]`, which is `undefined` for an empty array. -/
def getLatest (fs : FsState) : LatestResp :=
  match fs.dataFile with
  | .absent => .ok .nullValue
  | .corrupt => .serverError
  | .parsed data =>
      match data.getLast? with
      | none => .ok .undef
      | some r => .ok (.reading r)

/-- Response of `PUT /api/config`. -/
inductive PutResp where
  | badRequest
  | success (intervalMinutes : Int)
deriving DecidableEq, Repr

/-- HTTP status of a `PUT /api/config` response. -/
def PutResp.status : PutResp → Nat
  | .badRequest => 400
  | .success _ => 200

/-- `PUT /api/config` (api-server.ts lines 81-96) at an integer body value:
reject with 400 when `intervalMinutes < 1 || intervalMinutes > 1440`
without touching storage, otherwise `saveConfig({ intervalMinutes })` —
note the object literal carries no other field. -/
def putConfig (intervalMinutes : Int) (fs : FsState) : PutResp × FsState :=
  if intervalMinutes < 1 ∨ intervalMinutes > 1440 then
    (.badRequest, fs)
  else
    (.success intervalMinutes, saveConfig fs ⟨intervalMinutes, none⟩)

/-- Timer state of the scheduler process: the `timeoutId` variable
(speed-monitor.ts line 92), the set of currently pending timers, and a
counter generating fresh timer ids. -/
structure SchedState where
  timeoutId : Option Nat
  armed : List Nat
  nextId : Nat
deriving DecidableEq, Repr

/-- Effect of one `runMonitor` invocation on the timer state
(speed-monitor.ts lines 125-129): `if (timeoutId) clearTimeout(timeoutId)`
then `timeoutId = setTimeout(...)`.  `clearTimeout` on an id that already
fired is a no-op, which `List.erase` on an absent element captures. -/
def cycleStep (s : SchedState) : SchedState :=
  let armed1 := match s.timeoutId with
    | some t => s.armed.erase t
    | none => s.armed
  { timeoutId := some s.nextId, armed := armed1 ++ [s.nextId], nextId := s.nextId + 1 }

/-- Process start: no timer armed yet. -/
def initialSched : SchedState := { timeoutId := none, armed := [], nextId := 0 }

/-- Reachable timer states: the initial call to `runMonitor` and every
re-entry when the armed timer fires run the same cancel-then-arm sequence.
(When a timer fires it leaves the pending set before the callback runs;
since the callback's `clearTimeout` of that same id is then a no-op, the
combined effect equals `cycleStep` applied to the pre-fire state.) -/
inductive SchedReach : SchedState → Prop where
  | init : SchedReach initialSched
  | step {s : SchedState} : SchedReach s → SchedReach (cycleStep s)

/-- A sample reading at the epoch with zero measurements. -/
def reading0 : Reading :=
  { timestamp := 0, download := 0, upload := 0, ping := 0, jitter := 0 }

/-- A store whose config record carries the optional `method` selector. -/
def fsStoredMethod : FsState :=
  { dataFile := .absent
    configFile := .parsed { intervalMinutes := 30, method := some "ookla" } }

/-- `loadConfig` never touches the data file. -/
theorem loadConfig_dataFile (fs : FsState) : (loadConfig fs).2.dataFile = fs.dataFile := by
  obtain ⟨d, cf⟩ := fs
  cases cf <;> rfl

/-- `loadConfig` returns the parsed record unchanged on a parseable file. -/
theorem loadConfig_parsed (fs : FsState) (c : ConfigRec)
    (h : fs.configFile = .parsed c) : loadConfig fs = (c, fs) := by
  obtain ⟨d, cf⟩ := fs
  cases cf <;> simp_all [loadConfig]

/-- C1 counterexample: with `now = retentionMs` the cutoff `now - retentionMs`
is `0`; the boundary reading `reading0` (timestamp exactly at the cutoff) is
REMOVED by `prune`, while the claim says the boundary is retained. -/
theorem c1_boundary_reading_removed :
    reading0.timestamp = retentionMs - retentionMs ∧
    prune retentionMs [reading0] = [] := by
  constructor
  · rfl
  · rfl

/-- C1 (amended): `prune` keeps exactly the readings with
`now - retentionMs < timestamp`, i.e. it removes exactly those with
`timestamp ≤ now - retentionMs` — the boundary reading at
`now - retentionMs` is removed (exclusive boundary), not retained. -/
theorem c1_prune_characterisation (now : Int) (data : List Reading) (r : Reading) :
    r ∈ prune now data ↔ r ∈ data ∧ now - retentionMs < r.timestamp := by
  simp [prune, List.mem_filter]

/-- C2: the timer delay armed at the end of a cycle is computed from the
config read after the persistence step.  If the config store was overwritten
with record `c` during the cycle (mid-cycle `saveConfig` by the API server),
the armed delay is `c.intervalMinutes * 60 * 1000`, whatever interval was in
effect at cycle start and whatever the measurement did; in particular an
update from 30 to 5 minutes arms a 5-minute timer. -/
theorem c2_reschedule_reads_fresh_config (fs : FsState) (mres : Option Reading)
    (now : Int) (c : ConfigRec) :
    (runMonitorTail mres now (saveConfig fs c)).2 = c.intervalMinutes * 60 * 1000 := by
  cases mres <;>
    simp [runMonitorTail, saveConfig, saveData, loadData, loadConfig]

/-- C3: two consecutive cycles whose measurement fails leave the history
file untouched, the failures are absorbed (the cycle still completes), and
each cycle still arms the next timer at the configured interval. -/
theorem c3_failed_cycles_keep_history_and_reschedule (fs : FsState)
    (now1 now2 : Int) (c : ConfigRec) (h : fs.configFile = .parsed c) :
    (runMonitorTail none now1 fs).1.dataFile = fs.dataFile ∧
    (runMonitorTail none now2 (runMonitorTail none now1 fs).1).1.dataFile = fs.dataFile ∧
    (runMonitorTail none now1 fs).2 = c.intervalMinutes * 60 * 1000 ∧
    (runMonitorTail none now2 (runMonitorTail none now1 fs).1).2
      = c.intervalMinutes * 60 * 1000 := by
  have h1 : runMonitorTail none now1 fs = (fs, c.intervalMinutes * 60 * 1000) := by
    simp [runMonitorTail, loadConfig_parsed fs c h]
  have h2 : runMonitorTail none now2 fs = (fs, c.intervalMinutes * 60 * 1000) := by
    simp [runMonitorTail, loadConfig_parsed fs c h]
  rw [h1]
  simp [h2]

/-- C3 witness: a concrete store with a parseable 30-minute config and some
history; two failed cycles change nothing and both arm 30-minute timers. -/
theorem c3_witness :
    ({ dataFile := .parsed [reading0], configFile := .parsed defaultConfig } : FsState).configFile
      = .parsed defaultConfig ∧
    ((runMonitorTail none 0 { dataFile := .parsed [reading0], configFile := .parsed defaultConfig }).1.dataFile
        = FileContent.parsed [reading0] ∧
      (runMonitorTail none 1 (runMonitorTail none 0 { dataFile := .parsed [reading0], configFile := .parsed defaultConfig }).1).1.dataFile
        = FileContent.parsed [reading0] ∧
      (runMonitorTail none 0 { dataFile := .parsed [reading0], configFile := .parsed defaultConfig }).2
        = defaultConfig.intervalMinutes * 60 * 1000 ∧
      (runMonitorTail none 1 (runMonitorTail none 0 { dataFile := .parsed [reading0], configFile := .parsed defaultConfig }).1).2
        = defaultConfig.intervalMinutes * 60 * 1000) :=
  ⟨rfl, c3_failed_cycles_keep_history_and_reschedule _ 0 1 defaultConfig rfl⟩

/-- C4: an integer `intervalMinutes` outside `[1, 1440]` is rejected with
HTTP 400 and the whole store (hence the config record) is untouched, so a
subsequent `loadConfig` sees the prior state; every integer inside
`[1, 1440]` succeeds and persists it. -/
theorem c4_put_config_validation (i : Int) (fs : FsState) :
    ((i < 1 ∨ 1440 < i) →
      (putConfig i fs).1.status = 400 ∧ (putConfig i fs).2 = fs ∧
      loadConfig (putConfig i fs).2 = loadConfig fs) ∧
    (1 ≤ i → i ≤ 1440 →
      (putConfig i fs).1 = .success i ∧
      (putConfig i fs).2.configFile = .parsed ⟨i, none⟩) := by
  constructor
  · intro h
    simp [putConfig, h, PutResp.status]
  · intro h1 h2
    have hno : ¬(i < 1 ∨ 1440 < i) := by omega
    simp [putConfig, hno, saveConfig]

/-- C4 witness: `i = 0` is rejected with 400 leaving the store unchanged,
and `i = 5` succeeds. -/
theorem c4_witness :
    (((0 : Int) < 1 ∨ 1440 < (0 : Int)) ∧
      (putConfig 0 { dataFile := .absent, configFile := .parsed defaultConfig }).1.status = 400 ∧
      (putConfig 0 { dataFile := .absent, configFile := .parsed defaultConfig }).2
        = { dataFile := .absent, configFile := .parsed defaultConfig } ∧
      loadConfig (putConfig 0 { dataFile := .absent, configFile := .parsed defaultConfig }).2
        = loadConfig { dataFile := .absent, configFile := .parsed defaultConfig }) ∧
    ((1 : Int) ≤ 5 ∧ (5 : Int) ≤ 1440 ∧
      (putConfig 5 { dataFile := .absent, configFile := .parsed defaultConfig }).1
        = .success 5 ∧
      (putConfig 5 { dataFile := .absent, configFile := .parsed defaultConfig }).2.configFile
        = .parsed ⟨5, none⟩) :=
  ⟨⟨Or.inl (by decide),
    (c4_put_config_validation 0 { dataFile := .absent, configFile := .parsed defaultConfig }).1
      (Or.inl (by decide))⟩,
   by
    refine ⟨by decide, by decide, ?_⟩
    exact (c4_put_config_validation 5
      { dataFile := .absent, configFile := .parsed defaultConfig }).2
      (by decide) (by decide)⟩

/-- C5: `loadConfig` on an absent store materialises and persists the
default `{ intervalMinutes: 30 }` and returns it; on an unparseable store it
returns the default in memory and leaves the store exactly as it was. -/
theorem c5_load_config_defaults (fs : FsState) :
    (fs.configFile = .absent →
      loadConfig fs = (defaultConfig, { fs with configFile := .parsed defaultConfig })) ∧
    (fs.configFile = .corrupt → loadConfig fs = (defaultConfig, fs)) := by
  obtain ⟨d, cf⟩ := fs
  constructor
  · intro h
    cases cf <;> simp_all [loadConfig]
  · intro h
    cases cf <;> simp_all [loadConfig]

/-- C5 witness: the absent case writes the default; the corrupt case leaves
the corrupt file in place. -/
theorem c5_witness :
    loadConfig { dataFile := .absent, configFile := .absent }
      = (defaultConfig, { dataFile := .absent, configFile := .parsed defaultConfig }) ∧
    loadConfig { dataFile := .absent, configFile := .corrupt }
      = (defaultConfig, { dataFile := .absent, configFile := .corrupt }) :=
  ⟨(c5_load_config_defaults { dataFile := .absent, configFile := .absent }).1 rfl,
   (c5_load_config_defaults { dataFile := .absent, configFile := .corrupt }).2 rfl⟩

/-- C6: `loadData` answers `[]` both when the history file is absent and
when it is unparseable, and a subsequent successful cycle (appending a
reading inside the retention window) persists a valid one-element history. -/
theorem c6_tolerant_read_then_append (fs : FsState) (r : Reading) (now : Int)
    (hbad : fs.dataFile = .absent ∨ fs.dataFile = .corrupt)
    (hfresh : now - retentionMs < r.timestamp) :
    loadData fs = [] ∧
    (runMonitorTail (some r) now fs).1.dataFile = .parsed [r] := by
  have hload : loadData fs = [] := by
    obtain ⟨d, cf⟩ := fs
    rcases hbad with h | h <;> simp_all [loadData]
  refine ⟨hload, ?_⟩
  simp only [runMonitorTail, hload]
  rw [loadConfig_dataFile]
  simp [saveData, prune, hfresh]

/-- C6 witness: a corrupt history file reads as `[]`, and a cycle measuring
`reading0` at `now = 0` (well inside the window) leaves a one-element
history. -/
theorem c6_witness :
    (({ dataFile := .corrupt, configFile := .parsed defaultConfig } : FsState).dataFile
        = FileContent.absent ∨
      ({ dataFile := .corrupt, configFile := .parsed defaultConfig } : FsState).dataFile
        = FileContent.corrupt) ∧
    ((0 : Int) - retentionMs < reading0.timestamp) ∧
    (loadData { dataFile := .corrupt, configFile := .parsed defaultConfig } = [] ∧
      (runMonitorTail (some reading0) 0
          { dataFile := .corrupt, configFile := .parsed defaultConfig }).1.dataFile
        = .parsed [reading0]) :=
  ⟨Or.inr rfl, by decide,
   c6_tolerant_read_then_append _ reading0 0 (Or.inr rfl) (by decide)⟩

/-- Invariant of the timer step relation: the pending set is empty or
consists exactly of the timer recorded in `timeoutId`. -/
theorem sched_armed_inv {s : SchedState} (h : SchedReach s) :
    s.armed = [] ∨ ∃ t, s.timeoutId = some t ∧ s.armed = [t] := by
  induction h with
  | init => exact Or.inl rfl
  | @step s' _ ih =>
    right
    refine ⟨s'.nextId, rfl, ?_⟩
    rcases ih with h0 | ⟨t, ht, ha⟩
    · cases hti : s'.timeoutId <;> simp [cycleStep, h0, hti]
    · simp [cycleStep, ht, ha]

/-- C7: in every reachable timer state at most one pending single-shot
timer exists — the cancel-before-arm pattern never leaves two timers
pending at once. -/
theorem c7_at_most_one_pending_timer (s : SchedState) (h : SchedReach s) :
    s.armed.length ≤ 1 := by
  rcases sched_armed_inv h with h0 | ⟨t, _, ha⟩
  · simp [h0]
  · simp [ha]

/-- C7 witness: the state after the first cycle is reachable and has a
single pending timer. -/
theorem c7_witness :
    SchedReach (cycleStep initialSched) ∧ (cycleStep initialSched).armed.length ≤ 1 :=
  ⟨SchedReach.step SchedReach.init,
   c7_at_most_one_pending_timer _ (SchedReach.step SchedReach.init)⟩

/-- C8 counterexample: with positional argument `"5"` (a valid in-range
interval) and a stored interval of 30 minutes, startup still uses 30 — the
argument does not override the initial interval, because neither scheduler
variant reads `process.argv` at all. -/
theorem c8_cli_argument_has_no_effect :
    (startupInitialConfig ["5"]
        { dataFile := .absent, configFile := .parsed defaultConfig }).1.intervalMinutes = 30 ∧
    (5 : Int) ≠ 30 :=
  ⟨rfl, by decide⟩

/-- C8 (amended): the scheduler process accepts no command-line argument —
startup is independent of the argument vector and the initial interval
always comes from the Config Store; no startup validation or fatal path for
an argument exists. -/
theorem c8_startup_only_reads_config_store (argv argv2 : List String) (fs : FsState) :
    startupInitialConfig argv fs = startupInitialConfig argv2 fs ∧
    startupInitialConfig argv fs = loadConfig fs :=
  ⟨rfl, rfl⟩

/-- C9 counterexample: an existing history file holding the empty array
makes the endpoint serialise `data[data.length - 1]`, which is `undefined`,
not `null` as the claim states. -/
theorem c9_empty_array_file_yields_undefined :
    getLatest { dataFile := .parsed [], configFile := .absent } = .ok .undef ∧
    LatestValue.undef ≠ LatestValue.nullValue :=
  ⟨rfl, by decide⟩

/-- C9 (amended): `GET /api/speed-data/latest` answers `null` exactly when
no history file exists; on an existing file with an empty array it answers
with the `undefined` value (serialised as an empty body), and on a
non-empty history it answers the last element in insertion order. -/
theorem c9_latest_endpoint (fs : FsState) (data : List Reading) (r : Reading) :
    (fs.dataFile = .absent → getLatest fs = .ok .nullValue) ∧
    (fs.dataFile = .parsed [] → getLatest fs = .ok .undef) ∧
    (fs.dataFile = .parsed data → data.getLast? = some r →
      getLatest fs = .ok (.reading r)) := by
  obtain ⟨df, cf⟩ := fs
  refine ⟨fun h => ?_, fun h => ?_, fun h h2 => ?_⟩ <;>
    cases df <;> simp_all [getLatest]

/-- C9 witness: absent file answers `null`; a one-element history answers
that element. -/
theorem c9_witness :
    getLatest { dataFile := .absent, configFile := .absent } = .ok .nullValue ∧
    getLatest { dataFile := .parsed [reading0], configFile := .absent }
      = .ok (.reading reading0) :=
  ⟨(c9_latest_endpoint { dataFile := .absent, configFile := .absent } [] reading0).1 rfl,
   (c9_latest_endpoint { dataFile := .parsed [reading0], configFile := .absent }
      [reading0] reading0).2.2 rfl rfl⟩

/-- C10: a successful `PUT /api/config` persists exactly
`{ intervalMinutes }` — any `method` (or other field) previously stored is
dropped, because the handler writes the fresh object literal
`{ intervalMinutes }`. -/
theorem c10_put_config_drops_other_fields (i : Int) (fs : FsState)
    (h1 : 1 ≤ i) (h2 : i ≤ 1440) :
    (putConfig i fs).2.configFile = .parsed { intervalMinutes := i, method := none } := by
  have hno : ¬(i < 1 ∨ 1440 < i) := by omega
  simp [putConfig, hno, saveConfig]

/-- C10 witness: updating to 5 minutes over a stored record that carried
`method: "ookla"` leaves a record with no `method`. -/
theorem c10_witness :
    (1 : Int) ≤ 5 ∧ (5 : Int) ≤ 1440 ∧
    (putConfig 5 fsStoredMethod).2.configFile
      = .parsed { intervalMinutes := 5, method := none } :=
  ⟨by decide, by decide,
   c10_put_config_drops_other_fields 5 fsStoredMethod (by decide) (by decide)⟩
